import Mathlib

/-
Verification of the Segment Overlay Interaction Engine of peaks.js
(src/main/views/segments-layer.js and src/main/views/waveform-shape.js,
WaveformZoomView variant).

Times are modelled as rationals, pixel indices as integers. Mutable
per-segment state is passed explicitly; each definition mirrors one
function (or one phase of a function) of the source.
-/

namespace Peaks

/-- Coordinate mapper, WaveformZoomView.prototype.pixelsToTime:
pixels * scale / sample_rate. -/
def pixelsToTime (sampleRate scale p : ℚ) : ℚ :=
  p * scale / sampleRate

/-- Coordinate mapper, WaveformZoomView.prototype.timeToPixels:
Math.floor of time * sample_rate / scale. -/
def timeToPixels (sampleRate scale t : ℚ) : ℤ :=
  ⌊t * sampleRate / scale⌋

/-- A segment's editable boundaries (seconds). -/
structure Segment where
  startTime : ℚ
  endTime : ℚ
deriving DecidableEq, Repr

/-- The constant minSegmentDuration of _renderSegmentGroup (0.2 seconds). -/
def minSegmentDuration : ℚ := 1/5

/-- The inputs one drag-phase pass of _renderSegmentGroup reads: the two
handles' isMouseDragging flags, pointer x, view geometry, the drag anchors
(mouseStartDiffX), the coordinate-mapper snapshot, and the facing boundary
of each captured neighbour (endTime of neighbours.left, startTime of
neighbours.right), when present. -/
structure DragEnv where
  isStartDragging : Bool
  isEndDragging : Bool
  mouseX : ℚ
  frameOffset : ℚ
  viewWidth : ℚ
  startDiffX : ℚ
  endDiffX : ℚ
  endHandleWidth : ℚ
  sampleRate : ℚ
  scale : ℚ
  leftEndTime : Option ℚ
  rightStartTime : Option ℚ
deriving DecidableEq, Repr

/-- Candidate start time of a start-handle drag-move:
pixelsToTime of frameStartOffset + x - startHandle.mouseStartDiffX. -/
def startCandidate (env : DragEnv) : ℚ :=
  pixelsToTime env.sampleRate env.scale (env.frameOffset + env.mouseX - env.startDiffX)

/-- Candidate end time of an end-handle drag-move:
pixelsToTime of frameStartOffset + x + endHandle.width - endHandle.mouseStartDiffX. -/
def endCandidate (env : DragEnv) : ℚ :=
  pixelsToTime env.sampleRate env.scale
    (env.frameOffset + env.mouseX + env.endHandleWidth - env.endDiffX)

/-- Clamping of the start-handle candidate in _renderSegmentGroup: first the
minimum-duration bound against endTime, and only otherwise (else-if) the
left neighbour's endTime. Returns the clamped time together with the value
written to the left neighbour's isSegmentTouching flag (none when the
branch leaves it untouched). -/
def startNewTime (env : DragEnv) (seg : Segment) : ℚ × Option Bool :=
  let cand := startCandidate env
  if cand ≥ seg.endTime - minSegmentDuration then
    (seg.endTime - minSegmentDuration, none)
  else
    match env.leftEndTime with
    | some le => if le ≥ cand then (le, some true) else (cand, some false)
    | none => (cand, none)

/-- Clamping of the end-handle candidate in _renderSegmentGroup: first the
minimum-duration bound against startTime, and only otherwise (else-if) the
right neighbour's startTime. Returns the clamped time together with the
value written to the right neighbour's isSegmentTouching flag. -/
def endNewTime (env : DragEnv) (seg : Segment) : ℚ × Option Bool :=
  let cand := endCandidate env
  if cand ≤ seg.startTime + minSegmentDuration then
    (seg.startTime + minSegmentDuration, none)
  else
    match env.rightStartTime with
    | some rs => if rs ≤ cand then (rs, some true) else (cand, some false)
    | none => (cand, none)

/-- Result of the drag phase of one _renderSegmentGroup pass: the (possibly
mutated) segment, the values written to the neighbours' isSegmentTouching
flags (none = untouched), and the isInHandle payloads of the
segments.dragged events emitted, in order. -/
structure DragResult where
  segment : Segment
  leftTouching : Option Bool
  rightTouching : Option Bool
  draggedEvents : List Bool
deriving DecidableEq, Repr

/-- The drag phase of SegmentsLayer.prototype._renderSegmentGroup: if the
start handle is dragging and x > 0, clamp the start candidate and commit
when it differs from startTime; else if the end handle is dragging and
x <= view width, clamp the end candidate and commit when it differs from
startTime (sic: the source compares the end-handle value against
segment.startTime before assigning segment.endTime). -/
def dragPhase (env : DragEnv) (seg : Segment) : DragResult :=
  if env.isStartDragging then
    if env.mouseX > 0 then
      let nt := startNewTime env seg
      if nt.1 ≠ seg.startTime then
        ⟨{ seg with startTime := nt.1 }, nt.2, none, [true]⟩
      else
        ⟨seg, nt.2, none, []⟩
    else
      ⟨seg, none, none, []⟩
  else if env.isEndDragging then
    if env.mouseX ≤ env.viewWidth then
      let nt := endNewTime env seg
      if nt.1 ≠ seg.startTime then
        ⟨{ seg with endTime := nt.1 }, none, nt.2, [false]⟩
      else
        ⟨seg, none, nt.2, []⟩
    else
      ⟨seg, none, none, []⟩
  else
    ⟨seg, none, none, []⟩

/-- Committed segment state after a sequence of drag-move passes. -/
def runDrags (seg : Segment) : List DragEnv → Segment
  | [] => seg
  | env :: rest => runDrags (dragPhase env seg).segment rest

/-- A drag-move pass whose captured neighbours leave at least
minSegmentDuration of room on the constrained side of the segment. -/
def goodEnv (env : DragEnv) (seg : Segment) : Prop :=
  (∀ le ∈ env.leftEndTime, le ≤ seg.endTime - minSegmentDuration) ∧
  (∀ rs ∈ env.rightStartTime, seg.startTime + minSegmentDuration ≤ rs)

/-- A sequence of drag-move passes each of which is good for the segment
state it is applied to. -/
inductive GoodRun : Segment → List DragEnv → Prop
  | nil (seg : Segment) : GoodRun seg []
  | cons (env : DragEnv) (seg : Segment) (rest : List DragEnv) :
      goodEnv env seg → GoodRun (dragPhase env seg).segment rest →
      GoodRun seg (env :: rest)

/-- Per-group interaction flags touched by the window mouseup handler. -/
structure GroupFlags where
  startDragging : Bool
  endDragging : Bool
  isSegmentTouching : Bool
deriving DecidableEq, Repr

/-- The global window mouseup handler of SegmentsLayer: for every segment
group, if either handle is dragging both dragging flags are cleared, and if
isSegmentTouching is set it is cleared. -/
def windowMouseUp (gs : List GroupFlags) : List GroupFlags :=
  gs.map fun g =>
    let g1 := if g.startDragging || g.endDragging then
      { g with startDragging := false, endDragging := false }
    else g
    if g1.isSegmentTouching then { g1 with isSegmentTouching := false } else g1

/-- The pointer and geometry snapshot read by segmentGroup.emitEvents: the
layer-level isMouseOver flag, the pointer position, the highlight
rectangle, and the two handles' sizes. -/
structure HoverEnv where
  isMouseOver : Bool
  x : ℚ
  y : ℚ
  rectX : ℚ
  rectW : ℚ
  startHandleW : ℚ
  startHandleH : ℚ
  endHandleW : ℚ
  endHandleH : ℚ
deriving DecidableEq, Repr

/-- Body hover in emitEvents: isMouseOver and x strictly right of the
highlight rectangle's left edge and at most its right edge. -/
def bodyHover (env : HoverEnv) : Bool :=
  env.isMouseOver && (decide (env.rectX < env.x) && decide (env.x ≤ env.rectX + env.rectW))

/-- Start-handle hover in emitEvents: body hover, and either x within 3
pixels of the left edge (no vertical check), or x within the handle's
width with y within the handle's height. -/
def startHandleHover (env : HoverEnv) : Bool :=
  bodyHover env && (decide (env.x ≤ env.rectX + 3) ||
    (decide (env.x ≤ env.rectX + env.startHandleW) && decide (env.y ≤ env.startHandleH)))

/-- End-handle hover in emitEvents: body hover, and either x within 3
pixels of the right edge (no vertical check), or x within the handle's
width of the right edge with y within the handle's height. -/
def endHandleHover (env : HoverEnv) : Bool :=
  bodyHover env && (decide (env.x ≥ env.rectX + env.rectW - 3) ||
    (decide (env.x ≥ env.rectX + env.rectW - env.endHandleW) && decide (env.y ≤ env.endHandleH)))

/-- Stored hover flags of one segment group. A flag is none before the
first pass that assigns it (the source initialises none of them, so the
first comparison is against undefined). -/
structure HoverState where
  body : Option Bool
  startH : Option Bool
  endH : Option Bool
deriving DecidableEq, Repr

/-- Events emitted by segmentGroup.emitEvents: segmentGroup.mouseenter and
mouseleave for the body, segmentGroup.handle.mouseenter and mouseleave for
each handle. -/
inductive HoverEvent
  | bodyEnter
  | bodyLeave
  | startEnter
  | startLeave
  | endEnter
  | endLeave
deriving DecidableEq, Repr

/-- One segmentGroup.emitEvents pass: recompute the three hover booleans,
compare each against the stored flag with strict inequality (undefined
differs from false), emit on change, and store the new values. On a body
leave, handles whose stored flag is true are cleared and emit a handle
leave inside the body branch. Returns the new state and the events in
emission order. -/
def emitEvents (env : HoverEnv) (st : HoverState) : HoverState × List HoverEvent :=
  let isSeg := bodyHover env
  let bodyStep : Option Bool × Option Bool × List HoverEvent :=
    if st.body ≠ some isSeg then
      if isSeg then
        (st.startH, st.endH, [HoverEvent.bodyEnter])
      else
        let s1 := if st.startH = some true then
          ((some false : Option Bool), [HoverEvent.startLeave])
        else (st.startH, [])
        let e1 := if st.endH = some true then
          ((some false : Option Bool), [HoverEvent.endLeave])
        else (st.endH, [])
        (s1.1, e1.1, HoverEvent.bodyLeave :: (s1.2 ++ e1.2))
    else
      (st.startH, st.endH, [])
  let startH1 := bodyStep.1
  let endH1 := bodyStep.2.1
  let isSH := startHandleHover env
  let startStep : Option Bool × List HoverEvent :=
    if startH1 ≠ some isSH then
      ((some isSH : Option Bool),
        [if isSH then HoverEvent.startEnter else HoverEvent.startLeave])
    else (startH1, [])
  let isEH := endHandleHover env
  let endStep : Option Bool × List HoverEvent :=
    if endH1 ≠ some isEH then
      ((some isEH : Option Bool),
        [if isEH then HoverEvent.endEnter else HoverEvent.endLeave])
    else (endH1, [])
  (⟨some isSeg, startStep.1, endStep.1⟩, bodyStep.2.2 ++ startStep.2 ++ endStep.2)

/-- SegmentsLayer.prototype._findOrAddSegmentGroup over all found segments:
registers a group for every found id that has none yet, in order. -/
def addMissing (registered found : List ℕ) : List ℕ :=
  found.foldl (fun r s => if s ∈ r then r else r ++ [s]) registered

/-- One SegmentsLayer.prototype.updateSegments pass over the registry,
modelled on segment ids: count starts at the number of found segments,
each found segment gets a group if missing, _removeInvisibleSegments adds
the number of groups whose segment is no longer visible, and the layer is
redrawn iff the count is positive. Returns the count, the redraw decision,
and the surviving registry. -/
def updateSegmentsPass (registered found : List ℕ) (isVisible : ℕ → Bool) :
    ℕ × Bool × List ℕ :=
  let reg1 := addMissing registered found
  let removed := reg1.filter fun s => !isVisible s
  let count := found.length + removed.length
  (count, decide (0 < count), reg1.filter fun s => isVisible s)

/-- A JavaScript number restricted to the values the viewport code can
meet: NaN, the two infinities, or a finite value. -/
inductive JSNum
  | nan
  | posInf
  | negInf
  | num (q : ℚ)
deriving DecidableEq, Repr

/-- JavaScript less-than: false whenever either side is NaN. -/
def jsLt : JSNum → JSNum → Bool
  | .nan, _ => false
  | _, .nan => false
  | .negInf, .negInf => false
  | .negInf, _ => true
  | _, .negInf => false
  | .posInf, _ => false
  | .num _, .posInf => true
  | .num a, .num b => decide (a < b)

/-- Math.round: floor of q + 1/2 on finite values, identity on NaN and the
infinities. -/
def jsRound : JSNum → JSNum
  | .nan => .nan
  | .posInf => .posInf
  | .negInf => .negInf
  | .num q => .num ⌊q + 1/2⌋

/-- Utils.clamp from waveform.mixins.js: return lo when value < lo, hi
when value > hi, and the value itself otherwise (so NaN, comparing false
both times, passes through). -/
def clamp (value lo hi : JSNum) : JSNum :=
  if jsLt value lo then lo
  else if jsLt hi value then hi
  else value

/-- Whether Number.isFinite holds (typeof is number for every JSNum). -/
def isFiniteJS : JSNum → Bool
  | .num _ => true
  | _ => false

/-- WaveformZoomView.prototype.setAmplitudeScale: throw unless the scale is
a finite number, else store it. -/
def setAmplitudeScaleModel (cur : ℚ) (s : JSNum) : Except String ℚ :=
  if isFiniteJS s then
    match s with
    | .num q => Except.ok q
    | _ => Except.ok cur
  else
    Except.error "view.setAmplitudeScale(): Scale must be a valid number"

/-- Frame-offset computation of WaveformZoomView.prototype._updateWaveform:
when the waveform is shorter than the view the offset is reset to 0 and the
upper limit is the width, otherwise the upper limit is pixelLength - width;
the offset is then rounded and clamped into that range and stored. -/
def updateWaveformOffset (pixelLength width : ℕ) (frameOffset : JSNum) : JSNum :=
  let p : JSNum × ℚ :=
    if pixelLength < width then (JSNum.num 0, (width : ℚ))
    else (frameOffset, (pixelLength : ℚ) - (width : ℚ))
  clamp (jsRound p.1) (JSNum.num 0) (JSNum.num p.2)

/-- The stored frame offset the claim asserts: a finite integer value lying
in the valid scroll range. -/
def isIntegerInRange (pixelLength width : ℕ) (v : JSNum) : Prop :=
  ∃ k : ℤ, v = JSNum.num (k : ℚ) ∧ 0 ≤ k ∧ (k : ℚ) ≤ (pixelLength : ℚ) - (width : ℚ)

/-- Concrete good pass used by the C1 witness. -/
def c1WitnessEnv : DragEnv :=
  { isStartDragging := true, isEndDragging := false, mouseX := 1/2,
    frameOffset := 0, viewWidth := 1000, startDiffX := 0, endDiffX := 0,
    endHandleWidth := 16, sampleRate := 1, scale := 1,
    leftEndTime := some (2/5), rightStartTime := none }

/-- Concrete pass violating the claimed invariant: the left-neighbour clamp
sets startTime to the neighbour endTime 4.95 although only 0.15s remain
before endTime 5.1. -/
def c1CexEnv : DragEnv :=
  { isStartDragging := true, isEndDragging := false, mouseX := 4,
    frameOffset := 0, viewWidth := 1000, startDiffX := 0, endDiffX := 0,
    endHandleWidth := 16, sampleRate := 1, scale := 1,
    leftEndTime := some (99/20), rightStartTime := none }

/-- Concrete end-handle pass whose clamped candidate equals the current
endTime. -/
def c2Env : DragEnv :=
  { isStartDragging := false, isEndDragging := true, mouseX := 50,
    frameOffset := 0, viewWidth := 100, startDiffX := 0, endDiffX := 0,
    endHandleWidth := 0, sampleRate := 1, scale := 1,
    leftEndTime := none, rightStartTime := none }

/-- Concrete pass used by the C3 witness: candidate 0.5, left neighbour
ending at 0.75, segment from 1s to 2s. -/
def c3WitnessEnv : DragEnv :=
  { isStartDragging := true, isEndDragging := false, mouseX := 1/2,
    frameOffset := 0, viewWidth := 1000, startDiffX := 0, endDiffX := 0,
    endHandleWidth := 16, sampleRate := 1, scale := 1,
    leftEndTime := some (3/4), rightStartTime := none }

/-- Concrete pass whose candidate 0.97 has crossed the left neighbour's
endTime 1 but also sits above endTime - minSegmentDuration = 0.95. -/
def c3CexEnv : DragEnv :=
  { isStartDragging := true, isEndDragging := false, mouseX := 97/100,
    frameOffset := 0, viewWidth := 1000, startDiffX := 0, endDiffX := 0,
    endHandleWidth := 16, sampleRate := 1, scale := 1,
    leftEndTime := some 1, rightStartTime := none }

/-- The pointer situation at initialisation: the layer has no mouseover and
the stored hover flags on a freshly created segment group are all
undefined. -/
def c5InitEnv : HoverEnv :=
  { isMouseOver := false, x := 0, y := 0, rectX := 10, rectW := 100,
    startHandleW := 16, startHandleH := 16, endHandleW := 16, endHandleH := 16 }

/-- Handle-hover predicate as the claim words it: the vertical-extent check
applies to both the 3-pixel tolerance branch and the footprint branch. To
be compared with startHandleHover, which is translated from the source. -/
def claimStartHandleHover (env : HoverEnv) : Bool :=
  bodyHover env &&
    ((decide (env.x ≤ env.rectX + 3) || decide (env.x ≤ env.rectX + env.startHandleW)) &&
      decide (env.y ≤ env.startHandleH))

/-- A pointer 2 pixels inside the segment's left edge but 50 pixels down,
well below the 16-pixel handle. -/
def c6CexEnv : HoverEnv :=
  { isMouseOver := true, x := 12, y := 50, rectX := 10, rectW := 100,
    startHandleW := 16, startHandleH := 16, endHandleW := 16, endHandleH := 16 }

/-- A pointer position with the layer mouseover flag off. -/
def c6WitnessEnv : HoverEnv :=
  { isMouseOver := false, x := 12, y := 5, rectX := 10, rectW := 100,
    startHandleW := 16, startHandleH := 16, endHandleW := 16, endHandleH := 16 }

/-- Visibility predicate under which every segment stays visible. -/
def allVisible : ℕ → Bool := fun _ => true

/-- Drag pass with both handles engaged and the pointer beyond the right
edge of the view. -/
def c10CexEnv : DragEnv :=
  { isStartDragging := true, isEndDragging := true, mouseX := 150,
    frameOffset := 0, viewWidth := 100, startDiffX := 0, endDiffX := 0,
    endHandleWidth := 0, sampleRate := 1, scale := 1,
    leftEndTime := none, rightStartTime := none }

/-- Drag pass with only the end handle engaged and the pointer beyond the
right edge of the view. -/
def c10WitnessEnv : DragEnv :=
  { isStartDragging := false, isEndDragging := true, mouseX := 150,
    frameOffset := 0, viewWidth := 100, startDiffX := 0, endDiffX := 0,
    endHandleWidth := 0, sampleRate := 1, scale := 1,
    leftEndTime := none, rightStartTime := none }

/-- When the captured left neighbour leaves minSegmentDuration of room, the
clamped start time leaves at least minSegmentDuration before endTime. -/
theorem startNewTime_le (env : DragEnv) (seg : Segment)
    (hg : ∀ le ∈ env.leftEndTime, le ≤ seg.endTime - minSegmentDuration) :
    (startNewTime env seg).1 ≤ seg.endTime - minSegmentDuration := by
  unfold startNewTime
  cases h : env.leftEndTime with
  | none =>
      dsimp only
      split_ifs with h1
      · exact le_refl _
      · exact le_of_not_le h1
  | some le =>
      dsimp only
      split_ifs with h1 h2
      · exact le_refl _
      · exact hg le (by simp [h])
      · exact le_of_not_le h1

/-- When the captured right neighbour leaves minSegmentDuration of room,
the clamped end time leaves at least minSegmentDuration after startTime. -/
theorem endNewTime_ge (env : DragEnv) (seg : Segment)
    (hg : ∀ rs ∈ env.rightStartTime, seg.startTime + minSegmentDuration ≤ rs) :
    seg.startTime + minSegmentDuration ≤ (endNewTime env seg).1 := by
  unfold endNewTime
  cases h : env.rightStartTime with
  | none =>
      dsimp only
      split_ifs with h1
      · exact le_refl _
      · exact le_of_not_le h1
  | some rs =>
      dsimp only
      split_ifs with h1 h2
      · exact le_refl _
      · exact hg rs (by simp [h])
      · exact le_of_not_le h1

/-- One good drag-phase pass preserves the minimum-duration invariant. -/
theorem dragPhase_preserves (env : DragEnv) (seg : Segment)
    (h : minSegmentDuration ≤ seg.endTime - seg.startTime)
    (hg : goodEnv env seg) :
    minSegmentDuration ≤ (dragPhase env seg).segment.endTime -
      (dragPhase env seg).segment.startTime := by
  have hstart := startNewTime_le env seg hg.1
  have hend := endNewTime_ge env seg hg.2
  simp only [dragPhase]
  split_ifs with h1 h2 h3 h4 h5 h6 <;> first
    | exact h
    | linarith

/-- A whole good drag sequence preserves the minimum-duration invariant. -/
theorem runDrags_preserves (seg : Segment) (envs : List DragEnv)
    (hrun : GoodRun seg envs)
    (h : minSegmentDuration ≤ seg.endTime - seg.startTime) :
    minSegmentDuration ≤ (runDrags seg envs).endTime - (runDrags seg envs).startTime := by
  revert h
  induction hrun with
  | nil s =>
      intro h
      simpa [runDrags] using h
  | cons env s rest hge _ ih =>
      intro h
      simp only [runDrags]
      exact ih (dragPhase_preserves env s h hge)

/-- C1 (amended): for every segment whose initial state already satisfies
the minimum-duration invariant, after any sequence of start- and end-handle
drag-move passes in which every captured neighbour leaves at least
minSegmentDuration of room on its side, the committed state still satisfies
startTime < endTime and endTime - startTime >= 0.2. -/
theorem drag_sequence_keeps_min_duration (seg : Segment) (envs : List DragEnv)
    (hinit : minSegmentDuration ≤ seg.endTime - seg.startTime)
    (hrun : GoodRun seg envs) :
    (runDrags seg envs).startTime < (runDrags seg envs).endTime ∧
    minSegmentDuration ≤ (runDrags seg envs).endTime - (runDrags seg envs).startTime := by
  have h := runDrags_preserves seg envs hrun hinit
  have hpos : (0:ℚ) < minSegmentDuration := by norm_num [minSegmentDuration]
  exact ⟨by linarith, h⟩

/-- Witness for C1: the invariant theorem applied to the segment from 0s to
1s and one concrete good start-handle pass. -/
theorem drag_sequence_keeps_min_duration_witness :
    (minSegmentDuration ≤ (Segment.mk 0 1).endTime - (Segment.mk 0 1).startTime) ∧
    ((runDrags ⟨0, 1⟩ [c1WitnessEnv]).startTime < (runDrags ⟨0, 1⟩ [c1WitnessEnv]).endTime ∧
      minSegmentDuration ≤ (runDrags ⟨0, 1⟩ [c1WitnessEnv]).endTime -
        (runDrags ⟨0, 1⟩ [c1WitnessEnv]).startTime) :=
  ⟨by norm_num [minSegmentDuration],
   drag_sequence_keeps_min_duration ⟨0, 1⟩ [c1WitnessEnv]
     (by norm_num [minSegmentDuration])
     (GoodRun.cons _ _ _
       ⟨by intro le hle
           simp only [c1WitnessEnv, Option.mem_def, Option.some.injEq] at hle
           subst hle
           norm_num [minSegmentDuration],
        by intro rs hrs
           simp [c1WitnessEnv] at hrs⟩
       (GoodRun.nil _))⟩

/-- C1 counterexample: a segment with startTime < endTime whose committed
state after one left-neighbour-clamped start-handle pass has duration
0.15 < 0.2, refuting the claim as stated. -/
theorem drag_min_duration_cex :
    (Segment.mk 5 (51/10)).startTime < (Segment.mk 5 (51/10)).endTime ∧
    ¬ (minSegmentDuration ≤ (runDrags ⟨5, 51/10⟩ [c1CexEnv]).endTime -
        (runDrags ⟨5, 51/10⟩ [c1CexEnv]).startTime) := by
  have hrun : runDrags ⟨5, 51/10⟩ [c1CexEnv] = ⟨99/20, 51/10⟩ := by
    norm_num [runDrags, dragPhase, startNewTime, startCandidate, pixelsToTime,
      minSegmentDuration, c1CexEnv]
  rw [hrun]
  norm_num [minSegmentDuration]

/-- C2 (code bug): an end-handle pass whose clamped candidate equals the
segment's current endTime (50) still emits a segments.dragged event,
because the source compares the end-handle value against startTime instead
of endTime before committing. -/
theorem end_handle_redundant_commit_eval :
    (endNewTime c2Env ⟨0, 50⟩).1 = (Segment.mk 0 50).endTime ∧
    (dragPhase c2Env ⟨0, 50⟩).draggedEvents = [false] ∧
    (dragPhase c2Env ⟨0, 50⟩).segment = ⟨0, 50⟩ := by
  refine ⟨?_, ?_, ?_⟩ <;>
    norm_num [dragPhase, endNewTime, endCandidate, pixelsToTime,
      minSegmentDuration, c2Env]

/-- Every group flag is cleared by the global window mouseup handler. -/
theorem windowMouseUp_clears (gs : List GroupFlags) :
    ∀ g ∈ windowMouseUp gs,
      g.isSegmentTouching = false ∧ g.startDragging = false ∧ g.endDragging = false := by
  intro g hg
  simp only [windowMouseUp, List.mem_map] at hg
  obtain ⟨g0, -, rfl⟩ := hg
  split_ifs <;> simp_all

/-- C3 (amended): a start-handle drag-move whose candidate lies below
endTime - minSegmentDuration (so the minimum-duration clamp does not fire
first) and has crossed the captured left neighbour's endTime commits
exactly the neighbour's endTime and sets the neighbour's isSegmentTouching
flag; the global window mouseup handler then clears every
isSegmentTouching and dragging flag. -/
theorem start_handle_neighbour_clamp (env : DragEnv) (seg : Segment) (le : ℚ)
    (hs : env.isStartDragging = true) (hx : 0 < env.mouseX)
    (hl : env.leftEndTime = some le)
    (hmin : startCandidate env < seg.endTime - minSegmentDuration)
    (hcross : startCandidate env ≤ le) (gs : List GroupFlags) :
    (dragPhase env seg).segment.startTime = le ∧
    (dragPhase env seg).leftTouching = some true ∧
    ∀ g ∈ windowMouseUp gs,
      g.isSegmentTouching = false ∧ g.startDragging = false ∧ g.endDragging = false := by
  have hnle : ¬ (startCandidate env ≥ seg.endTime - minSegmentDuration) := not_le.mpr hmin
  have hnt : startNewTime env seg = (le, some true) := by
    unfold startNewTime
    rw [hl]
    simp only [if_neg hnle, ge_iff_le, if_pos hcross]
  refine ⟨?_, ?_, windowMouseUp_clears gs⟩ <;>
    · simp only [dragPhase, hs, if_true, if_pos hx, hnt]
      by_cases hne : le = seg.startTime <;> simp [hne]

/-- Witness for C3: the neighbour-clamp theorem applied at a concrete pass
and one group with both a dragging flag and the touching flag set. -/
theorem start_handle_neighbour_clamp_witness :
    ((0:ℚ) < c3WitnessEnv.mouseX ∧
      startCandidate c3WitnessEnv < (Segment.mk 1 2).endTime - minSegmentDuration ∧
      startCandidate c3WitnessEnv ≤ 3/4) ∧
    ((dragPhase c3WitnessEnv ⟨1, 2⟩).segment.startTime = 3/4 ∧
      (dragPhase c3WitnessEnv ⟨1, 2⟩).leftTouching = some true ∧
      ∀ g ∈ windowMouseUp [⟨true, false, true⟩],
        g.isSegmentTouching = false ∧ g.startDragging = false ∧ g.endDragging = false) :=
  ⟨⟨by norm_num [c3WitnessEnv],
    by norm_num [startCandidate, pixelsToTime, minSegmentDuration, c3WitnessEnv],
    by norm_num [startCandidate, pixelsToTime, c3WitnessEnv]⟩,
   start_handle_neighbour_clamp c3WitnessEnv ⟨1, 2⟩ (3/4) rfl
     (by norm_num [c3WitnessEnv])
     rfl
     (by norm_num [startCandidate, pixelsToTime, minSegmentDuration, c3WitnessEnv])
     (by norm_num [startCandidate, pixelsToTime, c3WitnessEnv])
     [⟨true, false, true⟩]⟩

/-- C3 counterexample: a start-handle pass whose candidate has crossed the
left neighbour's end boundary (1 >= 0.97) commits 0.95, not the neighbour's
endTime, and never sets the neighbour's isSegmentTouching flag, because the
minimum-duration clamp fires first. -/
theorem start_handle_neighbour_clamp_cex :
    c3CexEnv.isStartDragging = true ∧ (0:ℚ) < c3CexEnv.mouseX ∧
    c3CexEnv.leftEndTime = some 1 ∧ startCandidate c3CexEnv ≤ 1 ∧
    (dragPhase c3CexEnv ⟨1, 23/20⟩).segment.startTime ≠ 1 ∧
    (dragPhase c3CexEnv ⟨1, 23/20⟩).leftTouching ≠ some true := by
  refine ⟨rfl, by norm_num [c3CexEnv], rfl,
    by norm_num [startCandidate, pixelsToTime, c3CexEnv], ?_, ?_⟩
  · norm_num [dragPhase, startNewTime, startCandidate, pixelsToTime,
      minSegmentDuration, c3CexEnv]
  · have hlt : (dragPhase c3CexEnv ⟨1, 23/20⟩).leftTouching = none := by
      norm_num [dragPhase, startNewTime, startCandidate, pixelsToTime,
        minSegmentDuration, c3CexEnv]
    rw [hlt]
    simp

/-- C4: with one fixed sampleRate and scale snapshot, for every time t in
the interval from 0 to totalDuration the round trip pixelsToTime after
timeToPixels differs from t by less than one pixel-equivalent
scale / sampleRate. -/
theorem pixel_time_round_trip (sampleRate scale t totalDuration : ℚ)
    (hsr : 0 < sampleRate) (hsc : 0 < scale) (ht : 0 ≤ t) (htD : t < totalDuration) :
    |t - pixelsToTime sampleRate scale ((timeToPixels sampleRate scale t : ℤ) : ℚ)| <
      scale / sampleRate := by
  have hsrne : sampleRate ≠ 0 := ne_of_gt hsr
  have hscne : scale ≠ 0 := ne_of_gt hsc
  unfold pixelsToTime timeToPixels
  set u : ℚ := t * sampleRate / scale with hu
  have hteq : t = u * scale / sampleRate := by
    rw [hu]
    field_simp
  have h0 : (0:ℚ) ≤ u - ⌊u⌋ := by
    have := Int.floor_le u
    linarith
  have h1 : u - ⌊u⌋ < 1 := by
    have := Int.lt_floor_add_one u
    linarith
  have hratio : 0 < scale / sampleRate := div_pos hsc hsr
  have hdiff : t - (⌊u⌋ : ℚ) * scale / sampleRate = (u - ⌊u⌋) * (scale / sampleRate) := by
    rw [hteq]
    ring
  rw [hdiff, abs_of_nonneg (mul_nonneg h0 (le_of_lt hratio))]
  calc (u - ⌊u⌋) * (scale / sampleRate) < 1 * (scale / sampleRate) :=
        mul_lt_mul_of_pos_right h1 hratio
    _ = scale / sampleRate := one_mul _

/-- Witness for C4: the round-trip bound at sampleRate 2, scale 3, t 1,
totalDuration 10. -/
theorem pixel_time_round_trip_witness :
    ((0:ℚ) < 2 ∧ (0:ℚ) < 3 ∧ (0:ℚ) ≤ 1 ∧ (1:ℚ) < 10) ∧
    |1 - pixelsToTime 2 3 ((timeToPixels 2 3 1 : ℤ) : ℚ)| < 3 / 2 :=
  ⟨⟨by norm_num, by norm_num, by norm_num, by norm_num⟩,
   pixel_time_round_trip 2 3 1 10 (by norm_num) (by norm_num) (by norm_num) (by norm_num)⟩

/-- C5 (code bug): the first emitEvents pass on a freshly created segment
group emits a body mouseleave and two handle mouseleave events although no
enter was ever emitted: each stored flag is undefined, the computed hover
is false, and the strict comparison treats undefined as a change. The
source marks these emissions with TODO comments. -/
theorem init_pass_fires_leave :
    emitEvents c5InitEnv ⟨none, none, none⟩ =
      (⟨some false, some false, some false⟩,
        [HoverEvent.bodyLeave, HoverEvent.startLeave, HoverEvent.endLeave]) := by
  simp [emitEvents, bodyHover, startHandleHover, endHandleHover, c5InitEnv]

/-- C6 counterexample: inside the 3-pixel tolerance band the source sets
handle hover with the pointer outside the handle's vertical extent, so the
claimed characterisation is false at this input. -/
theorem handle_hover_vertical_cex :
    startHandleHover c6CexEnv = true ∧ claimStartHandleHover c6CexEnv = false ∧
    ¬ (c6CexEnv.y ≤ c6CexEnv.startHandleH) := by
  refine ⟨?_, ?_, ?_⟩ <;>
    norm_num [startHandleHover, claimStartHandleHover, bodyHover, c6CexEnv]

/-- C6 (amended): a handle's hover state is true iff body hover is true
and the pointer is either within 3 pixels of the corresponding edge (with
no vertical check) or within the handle's pixel footprint and within the
handle's vertical extent; handle hover is never true when body hover is
false. -/
theorem handle_hover_characterisation (env : HoverEnv) :
    (startHandleHover env = true ↔ bodyHover env = true ∧
      (env.x ≤ env.rectX + 3 ∨
        (env.x ≤ env.rectX + env.startHandleW ∧ env.y ≤ env.startHandleH))) ∧
    (endHandleHover env = true ↔ bodyHover env = true ∧
      (env.rectX + env.rectW - 3 ≤ env.x ∨
        (env.rectX + env.rectW - env.endHandleW ≤ env.x ∧ env.y ≤ env.endHandleH))) ∧
    (bodyHover env = false → startHandleHover env = false ∧ endHandleHover env = false) := by
  refine ⟨?_, ?_, ?_⟩
  · simp [startHandleHover, Bool.and_eq_true, Bool.or_eq_true, decide_eq_true_eq]
  · simp [endHandleHover, Bool.and_eq_true, Bool.or_eq_true, decide_eq_true_eq, ge_iff_le]
  · intro hb
    simp [startHandleHover, endHandleHover, hb]

/-- Witness for C6: with body hover false neither handle is hovered. -/
theorem handle_hover_characterisation_witness :
    startHandleHover c6WitnessEnv = false ∧ endHandleHover c6WitnessEnv = false :=
  (handle_hover_characterisation c6WitnessEnv).2.2
    (by simp [bodyHover, c6WitnessEnv])

/-- C7 counterexample: a pass whose one found segment is already
registered and stays visible adds nothing and removes nothing, yet the
computed count is 1 and a redraw is triggered, refuting the claim that the
count equals additions plus removals and that such a pass skips the
redraw. -/
theorem update_pass_redraw_cex :
    addMissing [1] [1] = [1] ∧
    (addMissing [1] [1]).filter (fun s => !allVisible s) = ([] : List ℕ) ∧
    updateSegmentsPass [1] [1] allVisible = (1, true, [1]) := by
  refine ⟨rfl, rfl, ?_⟩
  simp [updateSegmentsPass, addMissing, allVisible]

/-- C7 (amended): the count computed by an updateSegments pass equals the
number of segments found in the visible range plus the number of removed
groups, and the redraw fires iff at least one segment was found or at
least one group was removed; a pass that finds none and removes none skips
the redraw. -/
theorem update_pass_count_and_redraw (registered found : List ℕ) (isVisible : ℕ → Bool) :
    (updateSegmentsPass registered found isVisible).1 =
      found.length + ((addMissing registered found).filter fun s => !isVisible s).length ∧
    ((updateSegmentsPass registered found isVisible).2.1 = true ↔
      found ≠ [] ∨ ((addMissing registered found).filter fun s => !isVisible s) ≠ []) := by
  refine ⟨rfl, ?_⟩
  simp only [updateSegmentsPass, decide_eq_true_eq]
  rw [add_pos_iff, List.length_pos, List.length_pos]

/-- Witness for C7: the count and redraw characterisation at a concrete
pass that finds one new segment and removes one stale group. -/
theorem update_pass_count_and_redraw_witness :
    (updateSegmentsPass [1] [2] fun s => decide (s = 2)).1 =
      [2].length + ((addMissing [1] [2]).filter fun s => !decide (s = 2)).length ∧
    ((updateSegmentsPass [1] [2] fun s => decide (s = 2)).2.1 = true ↔
      ([2] : List ℕ) ≠ [] ∨ ((addMissing [1] [2]).filter fun s => !decide (s = 2)) ≠ []) :=
  update_pass_count_and_redraw [1] [2] fun s => decide (s = 2)

/-- C8 counterexample: a NaN frame offset is not rejected: it passes
Math.round and Utils.clamp unchanged and is stored, so the last valid
offset is not retained and no error surfaces. -/
theorem viewport_nan_not_rejected_cex :
    updateWaveformOffset 1000 100 JSNum.nan = JSNum.nan ∧
    JSNum.nan ≠ JSNum.num 0 := by
  refine ⟨?_, by simp⟩
  simp [updateWaveformOffset, clamp, jsRound, jsLt]

/-- C8 (amended): only the amplitude-scale setter validates its input: a
non-finite amplitude scale raises the single explicit error and the stored
scale is retained, while the frame-offset update accepts NaN unchanged and
clamps an infinite offset to the upper limit of the valid range. -/
theorem viewport_validation_amended (cur : ℚ) (s : JSNum) (pl w : ℕ)
    (hs : isFiniteJS s = false) (hwpl : w ≤ pl) :
    setAmplitudeScaleModel cur s =
      Except.error "view.setAmplitudeScale(): Scale must be a valid number" ∧
    updateWaveformOffset pl w JSNum.nan = JSNum.nan ∧
    updateWaveformOffset pl w JSNum.posInf = JSNum.num ((pl : ℚ) - (w : ℚ)) := by
  have hnlt : ¬ (pl < w) := Nat.not_lt.mpr hwpl
  refine ⟨?_, ?_, ?_⟩
  · simp [setAmplitudeScaleModel, hs]
  · simp [updateWaveformOffset, hnlt, clamp, jsRound, jsLt]
  · simp [updateWaveformOffset, hnlt, clamp, jsRound, jsLt]

/-- Witness for C8: the amended validation statement at a NaN amplitude
scale with pixel length 1000 and width 100. -/
theorem viewport_validation_amended_witness :
    (isFiniteJS JSNum.nan = false ∧ 100 ≤ 1000) ∧
    (setAmplitudeScaleModel 1 JSNum.nan =
        Except.error "view.setAmplitudeScale(): Scale must be a valid number" ∧
      updateWaveformOffset 1000 100 JSNum.nan = JSNum.nan ∧
      updateWaveformOffset 1000 100 JSNum.posInf = JSNum.num ((1000 : ℚ) - (100 : ℚ))) :=
  ⟨⟨rfl, by norm_num⟩,
   viewport_validation_amended 1 JSNum.nan 1000 100 rfl (by norm_num)⟩

/-- C9 counterexample: for the numeric argument NaN the stored frame
offset is NaN, which is not an integer in the valid range. -/
theorem frame_offset_nan_cex :
    ¬ isIntegerInRange 1000 100 (updateWaveformOffset 1000 100 JSNum.nan) := by
  have hv : updateWaveformOffset 1000 100 JSNum.nan = JSNum.nan := by
    simp [updateWaveformOffset, clamp, jsRound, jsLt]
  rw [hv]
  rintro ⟨k, hk, -⟩
  exact JSNum.noConfusion hk

/-- C9 (amended): for every finite frame-offset argument, the stored frame
offset after an updateWaveform pass is 0 when the waveform pixel length is
below the view width, and otherwise an integer in the range from 0 to
pixelLength - width. -/
theorem frame_offset_clamped (pl w : ℕ) (q : ℚ) :
    (pl < w → updateWaveformOffset pl w (JSNum.num q) = JSNum.num 0) ∧
    (w ≤ pl → isIntegerInRange pl w (updateWaveformOffset pl w (JSNum.num q))) := by
  constructor
  · intro h
    have h0 : ⌊(0:ℚ) + 1/2⌋ = 0 := by norm_num
    simp only [updateWaveformOffset, if_pos h, jsRound, h0]
    simp [clamp, jsLt]
  · intro h
    have hnlt : ¬ (pl < w) := Nat.not_lt.mpr h
    have hw0 : (0:ℚ) ≤ (pl : ℚ) - (w : ℚ) := by
      rw [sub_nonneg]
      exact_mod_cast h
    simp only [updateWaveformOffset, if_neg hnlt, jsRound]
    simp only [clamp, jsLt]
    split_ifs with h1 h2
    · exact ⟨0, by norm_num, le_refl 0, hw0⟩
    · refine ⟨(pl : ℤ) - (w : ℤ), by push_cast; ring_nf, ?_, by push_cast; exact le_rfl⟩
      rw [sub_nonneg]
      exact_mod_cast h
    · refine ⟨⌊q + 1/2⌋, rfl, ?_, ?_⟩
      · have := of_decide_eq_false (Bool.of_not_eq_true h1)
        have h1' : (0:ℚ) ≤ (⌊q + 1/2⌋ : ℚ) := le_of_not_lt this
        exact_mod_cast h1'
      · have := of_decide_eq_false (Bool.of_not_eq_true h2)
        exact le_of_not_lt this

/-- Witness for C9: the clamp characterisation at pixel length 1000, width
100 and offset 5/2, whose stored offset is the integer 3. -/
theorem frame_offset_clamped_witness :
    (100 ≤ 1000) ∧ isIntegerInRange 1000 100 (updateWaveformOffset 1000 100 (JSNum.num (5/2))) :=
  ⟨by norm_num, (frame_offset_clamped 1000 100 (5/2)).2 (by norm_num)⟩

/-- C10 counterexample: when both handles are dragging (both were hovered
at mousedown) and the pointer x exceeds the view width, the start branch
still runs, mutates startTime and emits a drag event, refuting the claim
that an end-handle drag with x beyond the width emits nothing. -/
theorem drag_guard_cex :
    c10CexEnv.isEndDragging = true ∧ c10CexEnv.viewWidth < c10CexEnv.mouseX ∧
    (dragPhase c10CexEnv ⟨0, 200⟩).draggedEvents = [true] ∧
    (dragPhase c10CexEnv ⟨0, 200⟩).segment.startTime = 150 := by
  refine ⟨rfl, by norm_num [c10CexEnv], ?_, ?_⟩ <;>
    norm_num [dragPhase, startNewTime, startCandidate, pixelsToTime,
      minSegmentDuration, c10CexEnv]

/-- C10 (amended): a start-handle drag pass with pointer x at most 0
leaves the state unchanged and emits nothing; an end-handle drag pass with
the start handle not dragging and pointer x beyond the view width leaves
the state unchanged and emits nothing. -/
theorem drag_guard_amended (env : DragEnv) (seg : Segment) :
    (env.isStartDragging = true → env.mouseX ≤ 0 →
      dragPhase env seg = ⟨seg, none, none, []⟩) ∧
    (env.isStartDragging = false → env.isEndDragging = true →
      env.viewWidth < env.mouseX →
      dragPhase env seg = ⟨seg, none, none, []⟩) := by
  constructor
  · intro h1 h2
    simp [dragPhase, h1, not_lt.mpr h2]
  · intro h1 h2 h3
    simp [dragPhase, h1, h2, not_le.mpr h3]

/-- Witness for C10: the amended guard statement at a concrete end-handle
pass with x = 150 beyond width 100. -/
theorem drag_guard_amended_witness :
    (c10WitnessEnv.isStartDragging = false ∧ c10WitnessEnv.isEndDragging = true ∧
      c10WitnessEnv.viewWidth < c10WitnessEnv.mouseX) ∧
    dragPhase c10WitnessEnv ⟨0, 200⟩ = ⟨⟨0, 200⟩, none, none, []⟩ :=
  ⟨⟨rfl, rfl, by norm_num [c10WitnessEnv]⟩,
   (drag_guard_amended c10WitnessEnv ⟨0, 200⟩).2 rfl rfl (by norm_num [c10WitnessEnv])⟩

end Peaks
